import Mathlib

/-!
Shallow embedding of `src/create_skill.py` (Claude Skill generator).

The script has two core components:

* `sanitize_name` (lines 12-29): a pure string normalisation pipeline with
  reserved-word and length checks;
* `create_skill` (lines 31-241): description validation, directory creation
  and five template-file writes, returning the target directory.

Strings are modelled as Lean `String`/`List Char`; Python's Unicode-aware
`str.lower` and `str.strip` are modelled on their ASCII behaviour (every
character the pipeline can let through is ASCII).  The filesystem is a map
from paths to entries; `Path.mkdir` / `Path.write_text` are modelled with
their success/error behaviour, and the wall clock
(`datetime.now().strftime`) is passed in as an explicit `today` string.
-/

/-- ASCII case of Python `str.lower` on one character: an upper-case letter
(code 65-90) is shifted down by 32, everything else is kept. -/
def lowerChar (c : Char) : Char :=
  if 65 ≤ c.toNat ∧ c.toNat ≤ 90 then Char.ofNat (c.toNat + 32) else c

/-- One character of `str.replace(' ', '-')` (line 15). -/
def spaceToHyphen (c : Char) : Char :=
  if c = ' ' then '-' else c

/-- The character class `[a-z0-9-]` of the regex on line 15
(`a` = 97, `z` = 122, `0` = 48, `9` = 57, `-` = 45). -/
def isAllowedChar (c : Char) : Bool :=
  (97 ≤ c.toNat ∧ c.toNat ≤ 122) ∨ (48 ≤ c.toNat ∧ c.toNat ≤ 57) ∨ c.toNat = 45

/-- `re.sub(r'-+', '-', s)` (line 17): collapse every run of consecutive
hyphens into a single hyphen, i.e. drop a hyphen that is directly followed
by another hyphen. -/
def collapseHyphens : List Char → List Char
  | [] => []
  | [c] => [c]
  | a :: b :: rest =>
    if a = '-' ∧ b = '-' then collapseHyphens (b :: rest)
    else a :: collapseHyphens (b :: rest)

/-- The hyphen test used by `str.strip('-')`. -/
def isHyphen (c : Char) : Bool := c == '-'

/-- Python `str.strip('-')` (line 19): remove trailing hyphens (via the
reversal) and then leading hyphens. -/
def stripHyphens (l : List Char) : List Char :=
  ((l.reverse.dropWhile isHyphen).reverse).dropWhile isHyphen

/-- Lines 15-19 of `sanitize_name`: lowercase, spaces to hyphens, strip
characters outside `[a-z0-9-]`, collapse hyphen runs, trim hyphens. -/
def normalizeName (name : List Char) : List Char :=
  stripHyphens (collapseHyphens
    (((name.map lowerChar).map spaceToHyphen).filter isAllowedChar))

/-- Python's substring test `sub in s`. -/
def containsSub (sub : List Char) : List Char → Bool
  | [] => sub.isEmpty
  | c :: rest => sub.isPrefixOf (c :: rest) || containsSub sub rest

/-- `sanitize_name` (lines 12-29): normalise the name, then reject names
containing a reserved substring (line 22) or longer than 64 characters
(line 26).  The Python function raises `ValueError`; errors are modelled
as `Except.error` carrying the exception message. -/
def sanitize_name (name : String) : Except String String :=
  let clean := normalizeName name.data
  if containsSub "anthropic".data clean || containsSub "claude".data clean then
    Except.error "Skill name cannot contain \x27anthropic\x27 or \x27claude\x27"
  else if clean.length > 64 then
    Except.error "Skill name must be 64 characters or less"
  else
    Except.ok (String.mk clean)

/-- ASCII case of the whitespace class used by Python `str.strip()`
(space, tab, newline, carriage return, vertical tab, form feed). -/
def pyIsSpace (c : Char) : Bool :=
  c == ' ' || c == '\t' || c == '\n' || c == '\x0d' || c == '\x0b' || c == '\x0c'

/-- Python `description.strip()` (line 52). -/
def pyStrip (s : String) : String :=
  String.mk ((s.data.dropWhile pyIsSpace).reverse.dropWhile pyIsSpace).reverse

/-- A filesystem path as built by `pathlib.Path`: whether it is absolute,
plus its components.  `Path(install_path) / safe_name` appends a component;
`Path(f"./{safe_name}")` is the relative path with the single component
`safe_name`. -/
structure PyPath where
  absolute : Bool
  components : List String
deriving DecidableEq

/-- `p / s` on `pathlib` paths. -/
def PyPath.child (p : PyPath) (s : String) : PyPath :=
  ⟨p.absolute, p.components ++ [s]⟩

/-- What can live at a path: a directory or a file with text content. -/
inductive Entry
  | dir
  | file (content : String)
deriving DecidableEq

/-- Filesystem state: what (if anything) exists at each path.  The path
with no components (the current directory, or the filesystem root) is
treated as an always-existing directory. -/
abbrev FS := PyPath → Option Entry

/-- The filesystem in which nothing has been created yet. -/
def emptyFS : FS := fun _ => none

/-- Point update of a filesystem. -/
def FS.update (fs : FS) (p : PyPath) (e : Entry) : FS :=
  fun q => if q = p then some e else fs q

/-- Is `p` a directory (the empty path counts as one)? -/
def FS.isDir (fs : FS) (p : PyPath) : Bool :=
  if p.components.isEmpty then true else fs p == some Entry.dir

/-- The parent of a path (`Path.parent`). -/
def PyPath.parent (p : PyPath) : PyPath :=
  ⟨p.absolute, p.components.dropLast⟩

/-- `Path.mkdir(exist_ok=True)` without `parents`: an existing directory is
fine, an existing file raises `FileExistsError`, a missing parent raises
`FileNotFoundError`, otherwise the directory is created. -/
def mkdirOne (fs : FS) (p : PyPath) : FS × Option String :=
  match fs p with
  | some Entry.dir => (fs, none)
  | some (Entry.file _) => (fs, some "FileExistsError")
  | none =>
    if FS.isDir fs p.parent then (FS.update fs p Entry.dir, none)
    else (fs, some "FileNotFoundError")

/-- Every non-empty prefix of the path, shortest first. -/
def pathPrefixes (p : PyPath) : List PyPath :=
  (List.range p.components.length).map
    (fun i => ⟨p.absolute, p.components.take (i + 1)⟩)

/-- Create each path of a list in turn, stopping at the first error. -/
def mkdirGo (fs : FS) : List PyPath → FS × Option String
  | [] => (fs, none)
  | q :: rest =>
    match mkdirOne fs q with
    | (fs1, none) => mkdirGo fs1 rest
    | (fs1, some e) => (fs1, some e)

/-- `Path.mkdir(parents=True, exist_ok=True)` (line 62): create every
missing ancestor, then the directory itself. -/
def mkdirParents (fs : FS) (p : PyPath) : FS × Option String :=
  mkdirGo fs (pathPrefixes p)

/-- `Path.write_text` (mode `w`): writing over a directory raises
`IsADirectoryError`, writing under a missing parent raises
`FileNotFoundError`, otherwise the file is created or truncated and
rewritten with the new content. -/
def writeText (fs : FS) (p : PyPath) (content : String) : FS × Option String :=
  match fs p with
  | some Entry.dir => (fs, some "IsADirectoryError")
  | _ =>
    if FS.isDir fs p.parent then (FS.update fs p (Entry.file content), none)
    else (fs, some "FileNotFoundError")

/-- Sequencing of fallible filesystem steps: an error aborts the rest of
`create_skill` and surfaces, keeping the filesystem as the failing step
left it (no rollback). -/
def bindFS (r : FS × Option String) (k : FS → FS × Except String PyPath) :
    FS × Except String PyPath :=
  match r with
  | (fs, some e) => (fs, Except.error e)
  | (fs, none) => k fs

/-- The `SKILL.md` template (lines 67-108).  `today` is
`datetime.now().strftime('%Y-%m-%d')`; the final dependencies line is
present exactly when `dependencies` is a non-empty string (Python
truthiness of `if dependencies`). -/
def skill_content (skill_name safe_name description purpose instructions
    examples dependencies today : String) : String :=
  "---\nname: " ++ safe_name ++ "\ndescription: " ++ description
    ++ "\n---\n\n# " ++ skill_name ++ "\n\n## Overview\n\n" ++ purpose
    ++ "\n\n## When to Use This Skill\n\nClaude should activate this skill when:\n- "
    ++ description
    ++ "\n\n## Instructions\n\n" ++ instructions
    ++ "\n\n## Examples\n\n" ++ examples
    ++ "\n\n## Best Practices\n\n- Follow all instructions in sequence\n- Reference additional files in resources/ when needed\n- Use scripts/ for executable code that doesn\x27t need to be in context\n- Keep responses focused and actionable\n\n## Additional Resources\n\n- See REFERENCE.md for detailed documentation\n- Check resources/ folder for templates and reference materials\n- Review scripts/ for utility code\n\n---\n*Created: "
    ++ today ++ "*\n*Version: 1.0.0*\n"
    ++ (if dependencies = "" then "" else "*Dependencies: " ++ dependencies ++ "*")
    ++ "\n"

/-- The `REFERENCE.md` template (lines 114-140). -/
def reference_content (skill_name today : String) : String :=
  "# " ++ skill_name
    ++ " - Reference Documentation\n\nThis file contains detailed information that doesn\x27t need to be loaded immediately\nbut can be referenced when needed.\n\n## Detailed Context\n\n[Add comprehensive background information here]\n\n## Advanced Usage\n\n[Document edge cases, advanced scenarios, and complex workflows]\n\n## Troubleshooting\n\n[Common issues and their solutions]\n\n## Related Resources\n\n- Additional documentation in resources/\n- Utility scripts in scripts/\n- External references: [Add relevant links]\n\n## Version History\n\n- v1.0.0 ("
    ++ today ++ "): Initial release\n"

/-- The `resources/README.md` template (lines 145-155). -/
def resources_readme (skill_name : String) : String :=
  "# Resources for " ++ skill_name
    ++ "\n\nThis directory contains supplemental files for the skill:\n\n- Templates\n- Reference data\n- Example files\n- Configuration samples\n\nFiles here are loaded on-demand, so they don\x27t count against the initial context budget.\n"

/-- The `scripts/README.md` template (lines 160-185). -/
def scripts_readme (skill_name : String) : String :=
  "# Scripts for " ++ skill_name
    ++ "\n\nExecutable code goes here. Scripts are run via bash, so only their output\n(not their code) consumes tokens.\n\n## Adding Scripts\n\n1. Create Python/shell scripts here\n2. Make them executable: `chmod +x script.py`\n3. Reference them in SKILL.md instructions\n4. Document their purpose and usage\n\n## Example\n\n```python\n#!/usr/bin/env python3\n# Description: What this script does\n\ndef main():\n    # Your code here\n    pass\n\nif __name__ == \"__main__\":\n    main()\n```\n"

/-- The static `.gitignore` content (lines 190-208). -/
def gitignore_content : String :=
  "# Python\n__pycache__/\n*.py[cod]\n*$py.class\n*.so\n.Python\n\n# Virtual environments\nvenv/\nenv/\n\n# IDE\n.vscode/\n.idea/\n\n# OS\n.DS_Store\nThumbs.db\n"

/-- Target directory resolution (lines 56-59): `Path(install_path) / safe_name`
when an install path is given, else the relative path `./safe_name`. -/
def resolveTarget (install_path : Option PyPath) (safe_name : String) : PyPath :=
  match install_path with
  | some p => p.child safe_name
  | none => ⟨false, [safe_name]⟩

/-- Lines 62-241 of `create_skill` after validation: create the target
directory (with parents) and the `resources/` and `scripts/`
subdirectories, write the five template files in source order, and return
`skill_dir` as it was constructed. -/
def materializeFiles (skill_name safe_name description purpose instructions
    examples dependencies today : String) (skill_dir : PyPath) (fs : FS) :
    FS × Except String PyPath :=
  bindFS (mkdirParents fs skill_dir) fun fs =>
  bindFS (mkdirOne fs (skill_dir.child "resources")) fun fs =>
  bindFS (mkdirOne fs (skill_dir.child "scripts")) fun fs =>
  bindFS (writeText fs (skill_dir.child "SKILL.md")
      (skill_content skill_name safe_name description purpose instructions
        examples dependencies today)) fun fs =>
  bindFS (writeText fs (skill_dir.child "REFERENCE.md")
      (reference_content skill_name today)) fun fs =>
  bindFS (writeText fs ((skill_dir.child "resources").child "README.md")
      (resources_readme skill_name)) fun fs =>
  bindFS (writeText fs ((skill_dir.child "scripts").child "README.md")
      (scripts_readme skill_name)) fun fs =>
  bindFS (writeText fs (skill_dir.child ".gitignore") gitignore_content) fun fs =>
  (fs, Except.ok skill_dir)

/-- `create_skill` (lines 31-241): sanitize the name (line 46), validate the
description (lines 49-53), then resolve the target and materialize the
skill tree.  The result pairs the filesystem after the call with either the
returned `skill_dir` or the raised error message. -/
def create_skill (skill_name description purpose instructions examples
    dependencies : String) (install_path : Option PyPath) (today : String)
    (fs : FS) : FS × Except String PyPath :=
  match sanitize_name skill_name with
  | Except.error e => (fs, Except.error e)
  | Except.ok safe_name =>
    if description.length > 1024 then
      (fs, Except.error "Description must be 1024 characters or less")
    else if pyStrip description = "" then
      (fs, Except.error "Description cannot be empty")
    else
      materializeFiles skill_name safe_name description purpose instructions
        examples dependencies today (resolveTarget install_path safe_name) fs

/-! ### Normal-form lemmas about the sanitisation pipeline -/

/-- No two consecutive hyphens anywhere in the list. -/
def noDouble : List Char → Bool
  | [] => true
  | [_] => true
  | a :: b :: rest =>
    if a = '-' ∧ b = '-' then false else noDouble (b :: rest)

theorem noDouble_tail {a : Char} {l : List Char} (h : noDouble (a :: l) = true) :
    noDouble l = true := by
  cases l with
  | nil => rfl
  | cons b r =>
    rw [noDouble] at h
    split at h
    · exact absurd h (by simp)
    · exact h

theorem noDouble_append_left {x y : List Char} (h : noDouble (x ++ y) = true) :
    noDouble x = true := by
  induction x with
  | nil => rfl
  | cons a x ih =>
    cases x with
    | nil => rfl
    | cons b x2 =>
      rw [List.cons_append, List.cons_append, noDouble] at h
      split at h
      · exact absurd h (by simp)
      · rename_i hc
        rw [noDouble, if_neg hc]
        exact ih (by rw [List.cons_append]; exact h)

theorem noDouble_append_right {x y : List Char} (h : noDouble (x ++ y) = true) :
    noDouble y = true := by
  induction x with
  | nil => exact h
  | cons a x ih =>
    rw [List.cons_append] at h
    exact ih (noDouble_tail h)

theorem collapseHyphens_cons (b : Char) (l : List Char) :
    ∃ t, collapseHyphens (b :: l) = b :: t := by
  induction l generalizing b with
  | nil => exact ⟨[], rfl⟩
  | cons c r ih =>
    by_cases h : b = '-' ∧ c = '-'
    · obtain ⟨t, ht⟩ := ih c
      refine ⟨t, ?_⟩
      rw [collapseHyphens, if_pos h, ht, h.1, h.2]
    · exact ⟨collapseHyphens (c :: r), by rw [collapseHyphens, if_neg h]⟩

theorem noDouble_collapseHyphens (l : List Char) :
    noDouble (collapseHyphens l) = true := by
  induction l with
  | nil => rfl
  | cons a t ih =>
    cases t with
    | nil => rfl
    | cons b r =>
      by_cases h : a = '-' ∧ b = '-'
      · rw [collapseHyphens, if_pos h]; exact ih
      · rw [collapseHyphens, if_neg h]
        obtain ⟨t2, ht2⟩ := collapseHyphens_cons b r
        rw [ht2, noDouble, if_neg h, ← ht2]
        exact ih

theorem mem_collapseHyphens {c : Char} {l : List Char}
    (h : c ∈ collapseHyphens l) : c ∈ l := by
  induction l with
  | nil => simpa [collapseHyphens] using h
  | cons a t ih =>
    cases t with
    | nil => simpa [collapseHyphens] using h
    | cons b r =>
      by_cases hc : a = '-' ∧ b = '-'
      · rw [collapseHyphens, if_pos hc] at h
        exact List.mem_cons_of_mem _ (ih h)
      · rw [collapseHyphens, if_neg hc] at h
        rcases List.mem_cons.mp h with h1 | h2
        · exact h1 ▸ List.mem_cons_self _ _
        · exact List.mem_cons_of_mem _ (ih h2)

theorem collapseHyphens_eq_self {l : List Char} (h : noDouble l = true) :
    collapseHyphens l = l := by
  induction l with
  | nil => rfl
  | cons a t ih =>
    cases t with
    | nil => rfl
    | cons b r =>
      rw [noDouble] at h
      split at h
      · exact absurd h (by simp)
      · rename_i hc
        rw [collapseHyphens, if_neg hc, ih h]

theorem head?_dropWhile_false {p : Char → Bool} {l : List Char} {c : Char}
    {t : List Char} (h : l.dropWhile p = c :: t) : p c = false := by
  induction l with
  | nil => exact absurd h (by simp)
  | cons a l2 ih =>
    rw [List.dropWhile_cons] at h
    split at h
    · exact ih h
    · rename_i hp
      cases h
      exact Bool.of_not_eq_true hp

theorem dropWhile_eq_self_of_head {p : Char → Bool} {l : List Char}
    (h : ∀ c t, l = c :: t → p c = false) : l.dropWhile p = l := by
  cases l with
  | nil => rfl
  | cons a t => rw [List.dropWhile_cons, h a t rfl]; simp

/-- The strip step removes only a prefix and a suffix: the original list is
recoverable around it. -/
theorem stripHyphens_decomp (l : List Char) :
    ∃ u v, l = u ++ stripHyphens l ++ v := by
  refine ⟨((l.reverse.dropWhile isHyphen).reverse).takeWhile isHyphen,
    (l.reverse.takeWhile isHyphen).reverse, ?_⟩
  have e1 := List.takeWhile_append_dropWhile isHyphen l.reverse
  have e2 : l = (l.reverse.dropWhile isHyphen).reverse
      ++ (l.reverse.takeWhile isHyphen).reverse := by
    have h := congrArg List.reverse e1
    rw [List.reverse_append, List.reverse_reverse] at h
    exact h.symm
  have e3 := List.takeWhile_append_dropWhile isHyphen
    (l.reverse.dropWhile isHyphen).reverse
  show l = ((l.reverse.dropWhile isHyphen).reverse).takeWhile isHyphen
      ++ ((l.reverse.dropWhile isHyphen).reverse).dropWhile isHyphen
      ++ (l.reverse.takeWhile isHyphen).reverse
  rw [e3]
  exact e2

theorem mem_stripHyphens {c : Char} {l : List Char}
    (h : c ∈ stripHyphens l) : c ∈ l := by
  obtain ⟨u, v, huv⟩ := stripHyphens_decomp l
  generalize hgen : stripHyphens l = s at huv h
  rw [huv]
  simp only [List.mem_append]
  exact Or.inl (Or.inr h)

theorem noDouble_stripHyphens {l : List Char} (h : noDouble l = true) :
    noDouble (stripHyphens l) = true := by
  obtain ⟨u, v, huv⟩ := stripHyphens_decomp l
  generalize hgen : stripHyphens l = s at huv ⊢
  rw [huv] at h
  exact noDouble_append_right (noDouble_append_left h)

theorem head?_stripHyphens (l : List Char) :
    (stripHyphens l).head? ≠ some '-' := by
  intro h
  cases hs : stripHyphens l with
  | nil => rw [hs] at h; exact absurd h (by simp)
  | cons c t =>
    rw [hs] at h
    have hc : c = '-' := by simpa using h
    have hfalse : isHyphen c = false := head?_dropWhile_false
      (show ((l.reverse.dropWhile isHyphen).reverse).dropWhile isHyphen = c :: t from hs)
    rw [hc] at hfalse
    exact absurd hfalse (by decide)

theorem getLast?_stripHyphens (l : List Char) :
    (stripHyphens l).getLast? ≠ some '-' := by
  intro h
  cases hs : stripHyphens l with
  | nil => rw [hs] at h; exact absurd h (by simp)
  | cons c t =>
    -- the strip output is the dropWhile of m := (l.reverse.dropWhile isHyphen).reverse,
    -- whose last element is the head of w := l.reverse.dropWhile isHyphen
    rw [hs] at h
    have e3 : ((l.reverse.dropWhile isHyphen).reverse).takeWhile isHyphen
        ++ (c :: t) = (l.reverse.dropWhile isHyphen).reverse := by
      rw [← hs, stripHyphens]
      exact List.takeWhile_append_dropWhile isHyphen
        (l.reverse.dropWhile isHyphen).reverse
    have hlast : ((l.reverse.dropWhile isHyphen).reverse).getLast? = some '-' := by
      rw [← e3, List.getLast?_append]
      have : (c :: t).getLast? = some '-' := h
      rw [this]
      rfl
    rw [List.getLast?_reverse] at hlast
    cases hw : l.reverse.dropWhile isHyphen with
    | nil => rw [hw] at hlast; exact absurd hlast (by simp)
    | cons w ws =>
      rw [hw] at hlast
      have hw2 : w = '-' := by simpa using hlast
      have : isHyphen w = false := head?_dropWhile_false hw
      rw [hw2] at this
      exact absurd this (by decide)

theorem stripHyphens_eq_self {l : List Char}
    (h1 : l.head? ≠ some '-') (h2 : l.getLast? ≠ some '-') :
    stripHyphens l = l := by
  have hrev : l.reverse.dropWhile isHyphen = l.reverse := by
    refine dropWhile_eq_self_of_head ?_
    intro c t hct
    have hlc : l.getLast? = some c := by
      rw [← List.head?_reverse, hct]; rfl
    have hcne : c ≠ '-' := fun hc => h2 (by rw [hlc, hc])
    simpa [isHyphen] using hcne
  rw [stripHyphens, hrev, List.reverse_reverse]
  refine dropWhile_eq_self_of_head ?_
  intro c t hct
  have hlc : l.head? = some c := by rw [hct]; rfl
  have hcne : c ≠ '-' := fun hc => h1 (by rw [hlc, hc])
  simpa [isHyphen] using hcne

theorem isAllowedChar_ranges {c : Char} (h : isAllowedChar c = true) :
    (97 ≤ c.toNat ∧ c.toNat ≤ 122) ∨ (48 ≤ c.toNat ∧ c.toNat ≤ 57)
      ∨ c.toNat = 45 := by
  simpa [isAllowedChar] using h

theorem lowerChar_allowed {c : Char} (h : isAllowedChar c = true) :
    lowerChar c = c := by
  have hr := isAllowedChar_ranges h
  rw [lowerChar, if_neg]
  omega

theorem spaceToHyphen_allowed {c : Char} (h : isAllowedChar c = true) :
    spaceToHyphen c = c := by
  have hr := isAllowedChar_ranges h
  rw [spaceToHyphen, if_neg]
  intro hc
  rw [hc] at hr
  simp at hr

theorem map_eq_self_of_fix {f : Char → Char} {l : List Char}
    (h : ∀ c ∈ l, f c = c) : l.map f = l := by
  induction l with
  | nil => rfl
  | cons a t ih =>
    rw [List.map_cons, h a (List.mem_cons_self a t),
      ih (fun c hc => h c (List.mem_cons_of_mem a hc))]

theorem mem_normalizeName_allowed {c : Char} {l : List Char}
    (h : c ∈ normalizeName l) : isAllowedChar c = true := by
  rw [normalizeName] at h
  have h1 := mem_collapseHyphens (mem_stripHyphens h)
  exact (List.mem_filter.mp h1).2

theorem noDouble_normalizeName (l : List Char) :
    noDouble (normalizeName l) = true := by
  rw [normalizeName]
  exact noDouble_stripHyphens (noDouble_collapseHyphens _)

theorem head?_normalizeName (l : List Char) :
    (normalizeName l).head? ≠ some '-' := by
  rw [normalizeName]
  exact head?_stripHyphens _

theorem getLast?_normalizeName (l : List Char) :
    (normalizeName l).getLast? ≠ some '-' := by
  rw [normalizeName]
  exact getLast?_stripHyphens _

/-- Re-running the normalisation pipeline on its own output changes
nothing: the output is already lower-case `[a-z0-9-]` text with no hyphen
runs and no boundary hyphens. -/
theorem normalizeName_idem (l : List Char) :
    normalizeName (normalizeName l) = normalizeName l := by
  have hall : ∀ c ∈ normalizeName l, isAllowedChar c = true :=
    fun c hc => mem_normalizeName_allowed hc
  have h1 : (normalizeName l).map lowerChar = normalizeName l :=
    map_eq_self_of_fix (fun c hc => lowerChar_allowed (hall c hc))
  have h2 : (normalizeName l).map spaceToHyphen = normalizeName l :=
    map_eq_self_of_fix (fun c hc => spaceToHyphen_allowed (hall c hc))
  have h3 : (normalizeName l).filter isAllowedChar = normalizeName l :=
    List.filter_eq_self.mpr hall
  show stripHyphens (collapseHyphens
      ((((normalizeName l).map lowerChar).map spaceToHyphen).filter isAllowedChar))
    = normalizeName l
  rw [h1, h2, h3, collapseHyphens_eq_self (noDouble_normalizeName l),
    stripHyphens_eq_self (head?_normalizeName l) (getLast?_normalizeName l)]

/-- What a successful `sanitize_name` run guarantees: the result is the
normalised input, it passed the reserved-substring test, and it is at most
64 characters long. -/
theorem sanitize_name_ok {s r : String} (h : sanitize_name s = Except.ok r) :
    r.data = normalizeName s.data ∧
    containsSub "anthropic".data r.data = false ∧
    containsSub "claude".data r.data = false ∧
    r.data.length ≤ 64 := by
  rw [sanitize_name] at h
  simp only [] at h
  split at h
  · exact absurd h (by simp)
  · split at h
    · exact absurd h (by simp)
    · rename_i hres hlen
      have hr : String.mk (normalizeName s.data) = r := by
        injection h
      have hdata : r.data = normalizeName s.data := by rw [← hr]
      refine ⟨hdata, ?_, ?_, ?_⟩
      · rw [hdata]
        have := Bool.of_not_eq_true hres
        simpa using And.left (by simpa using this)
      · rw [hdata]
        have := Bool.of_not_eq_true hres
        simpa using And.right (by simpa using this)
      · rw [hdata]
        omega

/-- The converse direction: normalised output that passes both checks is
returned unchanged. -/
theorem sanitize_name_eq_ok {s : String}
    (hres : containsSub "anthropic".data (normalizeName s.data) = false)
    (hcla : containsSub "claude".data (normalizeName s.data) = false)
    (hlen : (normalizeName s.data).length ≤ 64) :
    sanitize_name s = Except.ok (String.mk (normalizeName s.data)) := by
  rw [sanitize_name]
  simp only []
  rw [if_neg (by simp [hres, hcla]), if_neg (by omega)]

/-! ### Filesystem step lemmas -/

theorem FS.update_self (fs : FS) (p : PyPath) (e : Entry) :
    FS.update fs p e p = some e := by
  simp [FS.update]

theorem FS.update_ne (fs : FS) {p q : PyPath} (e : Entry) (h : q ≠ p) :
    FS.update fs p e q = fs q := by
  simp [FS.update, h]

theorem bindFS_none (fs : FS) (k : FS → FS × Except String PyPath) :
    bindFS (fs, none) k = k fs := rfl

theorem bindFS_ok {r : FS × Option String} {k : FS → FS × Except String PyPath}
    {fs2 : FS} {d : PyPath} (h : bindFS r k = (fs2, Except.ok d)) :
    ∃ fsm, r = (fsm, none) ∧ k fsm = (fs2, Except.ok d) := by
  obtain ⟨fsm, e⟩ := r
  cases e with
  | none => exact ⟨fsm, rfl, h⟩
  | some s =>
    rw [bindFS] at h
    exact absurd (congrArg Prod.snd h) (by simp)

theorem mkdirOne_of_dir {fs : FS} {p : PyPath} (h : fs p = some Entry.dir) :
    mkdirOne fs p = (fs, none) := by
  rw [mkdirOne, h]

theorem mkdirOne_ok {fs fs2 : FS} {p : PyPath}
    (h : mkdirOne fs p = (fs2, none)) :
    fs2 p = some Entry.dir ∧ ∀ q, q ≠ p → fs2 q = fs q := by
  rw [mkdirOne] at h
  split at h
  · rename_i heq
    obtain ⟨h1, -⟩ := Prod.mk.injEq .. ▸ h
    cases h
    exact ⟨heq, fun q _ => rfl⟩
  · exact absurd (congrArg Prod.snd h) (by simp)
  · rename_i heq
    split at h
    · cases h
      exact ⟨FS.update_self .., fun q hq => FS.update_ne _ _ hq⟩
    · exact absurd (congrArg Prod.snd h) (by simp)

theorem mkdirGo_ok {L : List PyPath} {fs fs2 : FS}
    (h : mkdirGo fs L = (fs2, none)) :
    (∀ q ∈ L, fs2 q = some Entry.dir) ∧ (∀ q, q ∉ L → fs2 q = fs q) := by
  induction L generalizing fs with
  | nil =>
    rw [mkdirGo] at h
    cases h
    exact ⟨by simp, fun q _ => rfl⟩
  | cons p rest ih =>
    rw [mkdirGo] at h
    split at h
    · rename_i fs1 heq
      obtain ⟨hrest, hout⟩ := ih h
      obtain ⟨hp, hother⟩ := mkdirOne_ok heq
      constructor
      · intro q hq
        rcases List.mem_cons.mp hq with hq1 | hq2
        · subst hq1
          by_cases hmem : q ∈ rest
          · exact hrest q hmem
          · rw [hout q hmem]; exact hp
        · exact hrest q hq2
      · intro q hq
        have hq1 : q ≠ p := fun he => hq (he ▸ List.mem_cons_self p rest)
        have hq2 : q ∉ rest := fun hm => hq (List.mem_cons_of_mem p hm)
        rw [hout q hq2, hother q hq1]
    · exact absurd (congrArg Prod.snd h) (by simp)

theorem mkdirGo_noop {L : List PyPath} {fs : FS}
    (h : ∀ q ∈ L, fs q = some Entry.dir) : mkdirGo fs L = (fs, none) := by
  induction L with
  | nil => rfl
  | cons p rest ih =>
    rw [mkdirGo, mkdirOne_of_dir (h p (List.mem_cons_self p rest))]
    exact ih (fun q hq => h q (List.mem_cons_of_mem p hq))

theorem writeText_ok {fs fs2 : FS} {p : PyPath} {c : String}
    (h : writeText fs p c = (fs2, none)) :
    fs2 = FS.update fs p (Entry.file c) := by
  rw [writeText] at h
  split at h
  · exact absurd (congrArg Prod.snd h) (by simp)
  · split at h
    · cases h; rfl
    · exact absurd (congrArg Prod.snd h) (by simp)

theorem writeText_run {fs : FS} {p : PyPath} (c : String)
    (h1 : fs p ≠ some Entry.dir) (h2 : FS.isDir fs p.parent = true) :
    writeText fs p c = (FS.update fs p (Entry.file c), none) := by
  rw [writeText]
  split
  · rename_i heq; exact absurd heq h1
  · rw [if_pos h2]

/-! ### Path arithmetic -/

theorem PyPath.child_components (p : PyPath) (s : String) :
    (p.child s).components = p.components ++ [s] := rfl

theorem PyPath.child_absolute (p : PyPath) (s : String) :
    (p.child s).absolute = p.absolute := rfl

theorem ne_child_of_le {q p : PyPath} (s : String)
    (h : q.components.length ≤ p.components.length) : q ≠ p.child s := by
  intro he
  have := congrArg (fun x => x.components.length) he
  simp [PyPath.child] at this
  omega

theorem child_ne_self (p : PyPath) (s : String) : p.child s ≠ p := by
  intro he
  have := congrArg (fun x => x.components.length) he
  simp [PyPath.child] at this

theorem child_inj {p : PyPath} {s t : String} (h : p.child s = p.child t) :
    s = t := by
  have hc := congrArg PyPath.components h
  simp only [PyPath.child_components] at hc
  have := List.append_cancel_left hc
  simpa using this

theorem child_ne_child {p : PyPath} {s t : String} (h : s ≠ t) :
    p.child s ≠ p.child t := fun he => h (child_inj he)

theorem childchild_ne_child (p : PyPath) (s u t : String) :
    (p.child s).child u ≠ p.child t := by
  intro he
  have := congrArg (fun x => x.components.length) he
  simp [PyPath.child] at this

theorem childchild_inj1 {p : PyPath} {s u t v : String}
    (h : (p.child s).child u = (p.child t).child v) : s = t := by
  have hc := congrArg PyPath.components h
  simp only [PyPath.child_components, List.append_assoc] at hc
  have h1 := List.append_cancel_left hc
  have h2 : s = t ∧ u = v := by simpa using h1
  exact h2.1

theorem childchild_ne {p : PyPath} {s u t v : String} (h : s ≠ t) :
    (p.child s).child u ≠ (p.child t).child v :=
  fun he => h (childchild_inj1 he)

theorem mem_pathPrefixes_length {q p : PyPath} (h : q ∈ pathPrefixes p) :
    q.components.length ≤ p.components.length := by
  rw [pathPrefixes] at h
  obtain ⟨i, hi, hq⟩ := List.mem_map.mp h
  rw [← hq]
  simp [List.length_take]

theorem self_mem_pathPrefixes {p : PyPath} (h : p.components ≠ []) :
    p ∈ pathPrefixes p := by
  rw [pathPrefixes]
  refine List.mem_map.mpr ⟨p.components.length - 1, ?_, ?_⟩
  · refine List.mem_range.mpr ?_
    have : p.components.length ≠ 0 := fun h0 => h (List.length_eq_zero.mp h0)
    omega
  · have hlen : p.components.length - 1 + 1 = p.components.length := by
      have : p.components.length ≠ 0 := fun h0 => h (List.length_eq_zero.mp h0)
      omega
    rw [hlen, List.take_length]

theorem child_parent (p : PyPath) (s : String) : (p.child s).parent = p := by
  rw [PyPath.parent, PyPath.child]
  simp

/-- What a successful `materializeFiles` run guarantees: the returned path
is the target, the target tree (target directory with its ancestors,
`resources/`, `scripts/`) exists, the five template files hold exactly the
rendered contents, and every other path is untouched. -/
theorem materializeFiles_ok {n sn d pu ins ex dep t : String} {dir0 : PyPath}
    {fs fs2 : FS} {dir : PyPath}
    (h : materializeFiles n sn d pu ins ex dep t dir0 fs = (fs2, Except.ok dir)) :
    dir = dir0 ∧
    (∀ q ∈ pathPrefixes dir0, fs2 q = some Entry.dir) ∧
    fs2 (dir0.child "resources") = some Entry.dir ∧
    fs2 (dir0.child "scripts") = some Entry.dir ∧
    fs2 (dir0.child "SKILL.md")
      = some (Entry.file (skill_content n sn d pu ins ex dep t)) ∧
    fs2 (dir0.child "REFERENCE.md")
      = some (Entry.file (reference_content n t)) ∧
    fs2 ((dir0.child "resources").child "README.md")
      = some (Entry.file (resources_readme n)) ∧
    fs2 ((dir0.child "scripts").child "README.md")
      = some (Entry.file (scripts_readme n)) ∧
    fs2 (dir0.child ".gitignore")
      = some (Entry.file gitignore_content) ∧
    (∀ q, q ∉ pathPrefixes dir0 →
      q ≠ dir0.child "resources" → q ≠ dir0.child "scripts" →
      q ≠ dir0.child "SKILL.md" → q ≠ dir0.child "REFERENCE.md" →
      q ≠ (dir0.child "resources").child "README.md" →
      q ≠ (dir0.child "scripts").child "README.md" →
      q ≠ dir0.child ".gitignore" → fs2 q = fs q) := by
  rw [materializeFiles] at h
  obtain ⟨fsA, e1, h⟩ := bindFS_ok h
  obtain ⟨fsB, e2, h⟩ := bindFS_ok h
  obtain ⟨fsC, e3, h⟩ := bindFS_ok h
  obtain ⟨fsD, e4, h⟩ := bindFS_ok h
  obtain ⟨fsE, e5, h⟩ := bindFS_ok h
  obtain ⟨fsF, e6, h⟩ := bindFS_ok h
  obtain ⟨fsG, e7, h⟩ := bindFS_ok h
  obtain ⟨fsH, e8, h⟩ := bindFS_ok h
  have hfs2 : fsH = fs2 := congrArg Prod.fst h
  have hdir : dir = dir0 := by
    have := congrArg Prod.snd h
    simpa using this.symm
  subst hfs2
  rw [mkdirParents] at e1
  obtain ⟨hpref, houtA⟩ := mkdirGo_ok e1
  obtain ⟨hresB, hothB⟩ := mkdirOne_ok e2
  obtain ⟨hscrC, hothC⟩ := mkdirOne_ok e3
  have hD := writeText_ok e4
  have hE := writeText_ok e5
  have hF := writeText_ok e6
  have hG := writeText_ok e7
  have hH := writeText_ok e8
  subst hD hE hF hG hH
  -- pairwise inequalities between the created paths
  have nResScr : dir0.child "resources" ≠ dir0.child "scripts" :=
    child_ne_child (by decide)
  have nResSk : dir0.child "resources" ≠ dir0.child "SKILL.md" :=
    child_ne_child (by decide)
  have nResRef : dir0.child "resources" ≠ dir0.child "REFERENCE.md" :=
    child_ne_child (by decide)
  have nResGit : dir0.child "resources" ≠ dir0.child ".gitignore" :=
    child_ne_child (by decide)
  have nResRR : dir0.child "resources" ≠ (dir0.child "resources").child "README.md" :=
    (child_ne_self _ _).symm
  have nResSR : dir0.child "resources" ≠ (dir0.child "scripts").child "README.md" :=
    (childchild_ne_child dir0 "scripts" "README.md" "resources").symm
  have nScrSk : dir0.child "scripts" ≠ dir0.child "SKILL.md" :=
    child_ne_child (by decide)
  have nScrRef : dir0.child "scripts" ≠ dir0.child "REFERENCE.md" :=
    child_ne_child (by decide)
  have nScrGit : dir0.child "scripts" ≠ dir0.child ".gitignore" :=
    child_ne_child (by decide)
  have nScrRR : dir0.child "scripts" ≠ (dir0.child "resources").child "README.md" :=
    (childchild_ne_child dir0 "resources" "README.md" "scripts").symm
  have nScrSR : dir0.child "scripts" ≠ (dir0.child "scripts").child "README.md" :=
    (child_ne_self _ _).symm
  have nSkRef : dir0.child "SKILL.md" ≠ dir0.child "REFERENCE.md" :=
    child_ne_child (by decide)
  have nSkRR : dir0.child "SKILL.md" ≠ (dir0.child "resources").child "README.md" :=
    (childchild_ne_child dir0 "resources" "README.md" "SKILL.md").symm
  have nSkSR : dir0.child "SKILL.md" ≠ (dir0.child "scripts").child "README.md" :=
    (childchild_ne_child dir0 "scripts" "README.md" "SKILL.md").symm
  have nSkGit : dir0.child "SKILL.md" ≠ dir0.child ".gitignore" :=
    child_ne_child (by decide)
  have nRefRR : dir0.child "REFERENCE.md" ≠ (dir0.child "resources").child "README.md" :=
    (childchild_ne_child dir0 "resources" "README.md" "REFERENCE.md").symm
  have nRefSR : dir0.child "REFERENCE.md" ≠ (dir0.child "scripts").child "README.md" :=
    (childchild_ne_child dir0 "scripts" "README.md" "REFERENCE.md").symm
  have nRefGit : dir0.child "REFERENCE.md" ≠ dir0.child ".gitignore" :=
    child_ne_child (by decide)
  have nRRSR : (dir0.child "resources").child "README.md"
      ≠ (dir0.child "scripts").child "README.md" :=
    childchild_ne (by decide)
  have nRRGit : (dir0.child "resources").child "README.md" ≠ dir0.child ".gitignore" :=
    childchild_ne_child dir0 "resources" "README.md" ".gitignore"
  have nSRGit : (dir0.child "scripts").child "README.md" ≠ dir0.child ".gitignore" :=
    childchild_ne_child dir0 "scripts" "README.md" ".gitignore"
  refine ⟨hdir, ?_, ?_, ?_, ?_, ?_, ?_, ?_, ?_, ?_⟩
  · -- ancestors of the target are directories
    intro q hq
    have hlen := mem_pathPrefixes_length hq
    have l1 : (dir0.child "resources").components.length
        = dir0.components.length + 1 := by simp [PyPath.child]
    have nq1 : q ≠ dir0.child ".gitignore" := ne_child_of_le _ hlen
    have nq2 : q ≠ (dir0.child "scripts").child "README.md" :=
      ne_child_of_le _ (by simp [PyPath.child]; omega)
    have nq3 : q ≠ (dir0.child "resources").child "README.md" :=
      ne_child_of_le _ (by simp [PyPath.child]; omega)
    have nq4 : q ≠ dir0.child "REFERENCE.md" := ne_child_of_le _ hlen
    have nq5 : q ≠ dir0.child "SKILL.md" := ne_child_of_le _ hlen
    have nq6 : q ≠ dir0.child "scripts" := ne_child_of_le _ hlen
    have nq7 : q ≠ dir0.child "resources" := ne_child_of_le _ hlen
    rw [FS.update_ne _ _ nq1, FS.update_ne _ _ nq2, FS.update_ne _ _ nq3,
      FS.update_ne _ _ nq4, FS.update_ne _ _ nq5, hothC q nq6, hothB q nq7]
    exact hpref q hq
  · rw [FS.update_ne _ _ nResGit, FS.update_ne _ _ nResSR, FS.update_ne _ _ nResRR,
      FS.update_ne _ _ nResRef, FS.update_ne _ _ nResSk, hothC _ nResScr]
    exact hresB
  · rw [FS.update_ne _ _ nScrGit, FS.update_ne _ _ nScrSR, FS.update_ne _ _ nScrRR,
      FS.update_ne _ _ nScrRef, FS.update_ne _ _ nScrSk]
    exact hscrC
  · rw [FS.update_ne _ _ nSkGit, FS.update_ne _ _ nSkSR, FS.update_ne _ _ nSkRR,
      FS.update_ne _ _ nSkRef]
    exact FS.update_self ..
  · rw [FS.update_ne _ _ nRefGit, FS.update_ne _ _ nRefSR, FS.update_ne _ _ nRefRR]
    exact FS.update_self ..
  · rw [FS.update_ne _ _ nRRGit, FS.update_ne _ _ nRRSR]
    exact FS.update_self ..
  · rw [FS.update_ne _ _ nSRGit]
    exact FS.update_self ..
  · exact FS.update_self ..
  · intro q hq hq1 hq2 hq3 hq4 hq5 hq6 hq7
    rw [FS.update_ne _ _ hq7, FS.update_ne _ _ hq6, FS.update_ne _ _ hq5,
      FS.update_ne _ _ hq4, FS.update_ne _ _ hq3, hothC q hq2, hothB q hq1]
    exact houtA q hq

theorem FS.isDir_of_dir {fs : FS} {p : PyPath} (h : fs p = some Entry.dir) :
    FS.isDir fs p = true := by
  rw [FS.isDir]
  split
  · rfl
  · simp [h]

theorem FS.isDir_true_cases {fs : FS} {p : PyPath}
    (h : p.components = [] ∨ fs p = some Entry.dir) : FS.isDir fs p = true := by
  rcases h with hc | hd
  · rw [FS.isDir, if_pos (by simp [hc])]
  · exact FS.isDir_of_dir hd

theorem FS.isDir_update_ne {fs : FS} {p q : PyPath} {e : Entry}
    (hne : p ≠ q) (h : FS.isDir fs p = true) :
    FS.isDir (FS.update fs q e) p = true := by
  rw [FS.isDir] at h ⊢
  by_cases hc : p.components.isEmpty
  · rw [if_pos hc]
  · rw [if_neg hc] at h ⊢
    rw [FS.update_ne _ _ hne]
    exact h

theorem dir_ne_childchild (p : PyPath) (s u : String) :
    p ≠ (p.child s).child u := by
  intro he
  have := congrArg (fun x => x.components.length) he
  simp [PyPath.child] at this

/-- Forward run of `materializeFiles` on a filesystem in which the whole
target tree already exists (the second-invocation situation): every mkdir
is a no-op and the five writes overwrite in order. -/
theorem materializeFiles_run {n sn d pu ins ex dep t : String} {dir0 : PyPath}
    {fs : FS}
    (hpre : ∀ q ∈ pathPrefixes dir0, fs q = some Entry.dir)
    (hres : fs (dir0.child "resources") = some Entry.dir)
    (hscr : fs (dir0.child "scripts") = some Entry.dir)
    (w1 : fs (dir0.child "SKILL.md") ≠ some Entry.dir)
    (w2 : fs (dir0.child "REFERENCE.md") ≠ some Entry.dir)
    (w3 : fs ((dir0.child "resources").child "README.md") ≠ some Entry.dir)
    (w4 : fs ((dir0.child "scripts").child "README.md") ≠ some Entry.dir)
    (w5 : fs (dir0.child ".gitignore") ≠ some Entry.dir) :
    materializeFiles n sn d pu ins ex dep t dir0 fs =
      (FS.update (FS.update (FS.update (FS.update (FS.update fs
        (dir0.child "SKILL.md")
          (Entry.file (skill_content n sn d pu ins ex dep t)))
        (dir0.child "REFERENCE.md") (Entry.file (reference_content n t)))
        ((dir0.child "resources").child "README.md")
          (Entry.file (resources_readme n)))
        ((dir0.child "scripts").child "README.md")
          (Entry.file (scripts_readme n)))
        (dir0.child ".gitignore") (Entry.file gitignore_content),
       Except.ok dir0) := by
  have hd0 : FS.isDir fs dir0 = true := by
    refine FS.isDir_true_cases ?_
    by_cases hc : dir0.components = []
    · exact Or.inl hc
    · exact Or.inr (hpre dir0 (self_mem_pathPrefixes hc))
  have hresD : FS.isDir fs (dir0.child "resources") = true := FS.isDir_of_dir hres
  have hscrD : FS.isDir fs (dir0.child "scripts") = true := FS.isDir_of_dir hscr
  have nd1 : dir0 ≠ dir0.child "SKILL.md" := (child_ne_self _ _).symm
  have nd2 : dir0 ≠ dir0.child "REFERENCE.md" := (child_ne_self _ _).symm
  have nd3 : dir0 ≠ (dir0.child "resources").child "README.md" :=
    dir_ne_childchild dir0 "resources" "README.md"
  have nd4 : dir0 ≠ (dir0.child "scripts").child "README.md" :=
    dir_ne_childchild dir0 "scripts" "README.md"
  have nres1 : dir0.child "resources" ≠ dir0.child "SKILL.md" :=
    child_ne_child (by decide)
  have nres2 : dir0.child "resources" ≠ dir0.child "REFERENCE.md" :=
    child_ne_child (by decide)
  have nscr1 : dir0.child "scripts" ≠ dir0.child "SKILL.md" :=
    child_ne_child (by decide)
  have nscr2 : dir0.child "scripts" ≠ dir0.child "REFERENCE.md" :=
    child_ne_child (by decide)
  have nscr3 : dir0.child "scripts" ≠ (dir0.child "resources").child "README.md" :=
    (childchild_ne_child dir0 "resources" "README.md" "scripts").symm
  have n21 : dir0.child "REFERENCE.md" ≠ dir0.child "SKILL.md" :=
    child_ne_child (by decide)
  have n31 : (dir0.child "resources").child "README.md" ≠ dir0.child "SKILL.md" :=
    childchild_ne_child dir0 "resources" "README.md" "SKILL.md"
  have n32 : (dir0.child "resources").child "README.md" ≠ dir0.child "REFERENCE.md" :=
    childchild_ne_child dir0 "resources" "README.md" "REFERENCE.md"
  have n41 : (dir0.child "scripts").child "README.md" ≠ dir0.child "SKILL.md" :=
    childchild_ne_child dir0 "scripts" "README.md" "SKILL.md"
  have n42 : (dir0.child "scripts").child "README.md" ≠ dir0.child "REFERENCE.md" :=
    childchild_ne_child dir0 "scripts" "README.md" "REFERENCE.md"
  have n43 : (dir0.child "scripts").child "README.md"
      ≠ (dir0.child "resources").child "README.md" :=
    childchild_ne (by decide)
  have n51 : dir0.child ".gitignore" ≠ dir0.child "SKILL.md" :=
    child_ne_child (by decide)
  have n52 : dir0.child ".gitignore" ≠ dir0.child "REFERENCE.md" :=
    child_ne_child (by decide)
  have n53 : dir0.child ".gitignore" ≠ (dir0.child "resources").child "README.md" :=
    (childchild_ne_child dir0 "resources" "README.md" ".gitignore").symm
  have n54 : dir0.child ".gitignore" ≠ (dir0.child "scripts").child "README.md" :=
    (childchild_ne_child dir0 "scripts" "README.md" ".gitignore").symm
  have hpar1 : FS.isDir fs (PyPath.child dir0 "SKILL.md").parent = true := by
    rw [child_parent]; exact hd0
  have hpar2 : FS.isDir
      (FS.update fs (dir0.child "SKILL.md")
        (Entry.file (skill_content n sn d pu ins ex dep t)))
      (PyPath.child dir0 "REFERENCE.md").parent = true := by
    rw [child_parent]; exact FS.isDir_update_ne nd1 hd0
  have hpar3 : FS.isDir
      (FS.update (FS.update fs (dir0.child "SKILL.md")
        (Entry.file (skill_content n sn d pu ins ex dep t)))
        (dir0.child "REFERENCE.md") (Entry.file (reference_content n t)))
      (PyPath.child (PyPath.child dir0 "resources") "README.md").parent = true := by
    rw [child_parent]
    exact FS.isDir_update_ne nres2 (FS.isDir_update_ne nres1 hresD)
  have hpar4 : FS.isDir
      (FS.update (FS.update (FS.update fs (dir0.child "SKILL.md")
        (Entry.file (skill_content n sn d pu ins ex dep t)))
        (dir0.child "REFERENCE.md") (Entry.file (reference_content n t)))
        ((dir0.child "resources").child "README.md")
          (Entry.file (resources_readme n)))
      (PyPath.child (PyPath.child dir0 "scripts") "README.md").parent = true := by
    rw [child_parent]
    exact FS.isDir_update_ne nscr3
      (FS.isDir_update_ne nscr2 (FS.isDir_update_ne nscr1 hscrD))
  have hpar5 : FS.isDir
      (FS.update (FS.update (FS.update (FS.update fs (dir0.child "SKILL.md")
        (Entry.file (skill_content n sn d pu ins ex dep t)))
        (dir0.child "REFERENCE.md") (Entry.file (reference_content n t)))
        ((dir0.child "resources").child "README.md")
          (Entry.file (resources_readme n)))
        ((dir0.child "scripts").child "README.md")
          (Entry.file (scripts_readme n)))
      (PyPath.child dir0 ".gitignore").parent = true := by
    rw [child_parent]
    exact FS.isDir_update_ne nd4 (FS.isDir_update_ne nd3
      (FS.isDir_update_ne nd2 (FS.isDir_update_ne nd1 hd0)))
  have w2h : FS.update fs (dir0.child "SKILL.md")
      (Entry.file (skill_content n sn d pu ins ex dep t))
      (dir0.child "REFERENCE.md") ≠ some Entry.dir := by
    rw [FS.update_ne _ _ n21]; exact w2
  have w3h : FS.update (FS.update fs (dir0.child "SKILL.md")
      (Entry.file (skill_content n sn d pu ins ex dep t)))
      (dir0.child "REFERENCE.md") (Entry.file (reference_content n t))
      ((dir0.child "resources").child "README.md") ≠ some Entry.dir := by
    rw [FS.update_ne _ _ n32, FS.update_ne _ _ n31]; exact w3
  have w4h : FS.update (FS.update (FS.update fs (dir0.child "SKILL.md")
      (Entry.file (skill_content n sn d pu ins ex dep t)))
      (dir0.child "REFERENCE.md") (Entry.file (reference_content n t)))
      ((dir0.child "resources").child "README.md")
        (Entry.file (resources_readme n))
      ((dir0.child "scripts").child "README.md") ≠ some Entry.dir := by
    rw [FS.update_ne _ _ n43, FS.update_ne _ _ n42, FS.update_ne _ _ n41]
    exact w4
  have w5h : FS.update (FS.update (FS.update (FS.update fs (dir0.child "SKILL.md")
      (Entry.file (skill_content n sn d pu ins ex dep t)))
      (dir0.child "REFERENCE.md") (Entry.file (reference_content n t)))
      ((dir0.child "resources").child "README.md")
        (Entry.file (resources_readme n)))
      ((dir0.child "scripts").child "README.md")
        (Entry.file (scripts_readme n))
      (dir0.child ".gitignore") ≠ some Entry.dir := by
    rw [FS.update_ne _ _ n54, FS.update_ne _ _ n53, FS.update_ne _ _ n52,
      FS.update_ne _ _ n51]
    exact w5
  rw [materializeFiles, mkdirParents, mkdirGo_noop hpre, bindFS_none,
    mkdirOne_of_dir hres, bindFS_none, mkdirOne_of_dir hscr, bindFS_none,
    writeText_run _ w1 hpar1, bindFS_none,
    writeText_run _ w2h hpar2, bindFS_none,
    writeText_run _ w3h hpar3, bindFS_none,
    writeText_run _ w4h hpar4, bindFS_none,
    writeText_run _ w5h hpar5, bindFS_none]

/-- Unfolding of `create_skill` when the name sanitises successfully. -/
theorem create_skill_ok_case {n sn : String} (d pu ins ex dep : String)
    (ip : Option PyPath) (t : String) (fs : FS)
    (hsan : sanitize_name n = Except.ok sn) :
    create_skill n d pu ins ex dep ip t fs =
      if d.length > 1024 then
        (fs, Except.error "Description must be 1024 characters or less")
      else if pyStrip d = "" then
        (fs, Except.error "Description cannot be empty")
      else
        materializeFiles n sn d pu ins ex dep t (resolveTarget ip sn) fs := by
  unfold create_skill
  rw [hsan]

/-- Unfolding of `create_skill` when the name is rejected. -/
theorem create_skill_err_case {n e : String} (d pu ins ex dep : String)
    (ip : Option PyPath) (t : String) (fs : FS)
    (hsan : sanitize_name n = Except.error e) :
    create_skill n d pu ins ex dep ip t fs = (fs, Except.error e) := by
  unfold create_skill
  rw [hsan]

/-- A successful `create_skill` run implies: the name sanitised, the
description passed both checks, the returned path is the resolved target,
and the materialisation succeeded. -/
theorem create_skill_ok_elim {n d pu ins ex dep t : String} {ip : Option PyPath}
    {fs fs2 : FS} {dir : PyPath}
    (h : create_skill n d pu ins ex dep ip t fs = (fs2, Except.ok dir)) :
    ∃ sn, sanitize_name n = Except.ok sn ∧ dir = resolveTarget ip sn ∧
      ¬ d.length > 1024 ∧ pyStrip d ≠ "" ∧
      materializeFiles n sn d pu ins ex dep t (resolveTarget ip sn) fs
        = (fs2, Except.ok dir) := by
  cases hsan : sanitize_name n with
  | error e =>
    rw [create_skill_err_case d pu ins ex dep ip t fs hsan] at h
    exact absurd (congrArg Prod.snd h) (by simp)
  | ok sn =>
    rw [create_skill_ok_case d pu ins ex dep ip t fs hsan] at h
    by_cases h1 : d.length > 1024
    · rw [if_pos h1] at h
      exact absurd (congrArg Prod.snd h) (by simp)
    · rw [if_neg h1] at h
      by_cases h2 : pyStrip d = ""
      · rw [if_pos h2] at h
        exact absurd (congrArg Prod.snd h) (by simp)
      · rw [if_neg h2] at h
        exact ⟨sn, rfl, (materializeFiles_ok h).1, h1, h2, h⟩

/-- The target directory always has at least one component. -/
theorem resolveTarget_components_ne_nil (ip : Option PyPath) (sn : String) :
    (resolveTarget ip sn).components ≠ [] := by
  cases ip with
  | none => simp [resolveTarget]
  | some p => simp [resolveTarget, PyPath.child]

theorem dropWhile_eq_nil_of_all {p : Char → Bool} {l : List Char}
    (h : l.all p = true) : l.dropWhile p = [] := by
  induction l with
  | nil => rfl
  | cons a t ih =>
    rw [List.all_cons] at h
    obtain ⟨ha, ht⟩ := Bool.and_eq_true_iff.mp h
    rw [List.dropWhile_cons, ha]
    simpa using ih ht

/-- A whitespace-only description strips to the empty string. -/
theorem pyStrip_eq_empty_of_all {d : String} (h : d.data.all pyIsSpace = true) :
    pyStrip d = "" := by
  rw [pyStrip, dropWhile_eq_nil_of_all h]
  rfl

/-- The rendered `SKILL.md` opens with exactly the two-field metadata
header `---, name: <safeName>, description: <description>, ---`. -/
theorem skill_content_header (skill_name safe_name description purpose
    instructions examples dependencies today : String) :
    ∃ rest, skill_content skill_name safe_name description purpose
        instructions examples dependencies today
      = "---\nname: " ++ safe_name ++ "\ndescription: " ++ description
        ++ "\n---\n" ++ rest := by
  refine ⟨"\n# " ++ skill_name ++ "\n\n## Overview\n\n" ++ purpose
    ++ "\n\n## When to Use This Skill\n\nClaude should activate this skill when:\n- "
    ++ description
    ++ "\n\n## Instructions\n\n" ++ instructions
    ++ "\n\n## Examples\n\n" ++ examples
    ++ "\n\n## Best Practices\n\n- Follow all instructions in sequence\n- Reference additional files in resources/ when needed\n- Use scripts/ for executable code that doesn\x27t need to be in context\n- Keep responses focused and actionable\n\n## Additional Resources\n\n- See REFERENCE.md for detailed documentation\n- Check resources/ folder for templates and reference materials\n- Review scripts/ for utility code\n\n---\n*Created: "
    ++ today ++ "*\n*Version: 1.0.0*\n"
    ++ (if dependencies = "" then "" else "*Dependencies: " ++ dependencies ++ "*")
    ++ "\n", ?_⟩
  rw [skill_content,
    show ("\n---\n\n# " : String) = "\n---\n" ++ "\n# " from rfl]
  simp only [String.append_assoc]

/-- The rendered `SKILL.md` ends with the dependencies line exactly when
`dependencies` is non-empty, followed by a final newline. -/
theorem skill_content_footer (skill_name safe_name description purpose
    instructions examples dependencies today : String) :
    ∃ pre, skill_content skill_name safe_name description purpose
        instructions examples dependencies today
      = pre ++ (if dependencies = "" then ""
          else "*Dependencies: " ++ dependencies ++ "*") ++ "\n" :=
  ⟨"---\nname: " ++ safe_name ++ "\ndescription: " ++ description
    ++ "\n---\n\n# " ++ skill_name ++ "\n\n## Overview\n\n" ++ purpose
    ++ "\n\n## When to Use This Skill\n\nClaude should activate this skill when:\n- "
    ++ description
    ++ "\n\n## Instructions\n\n" ++ instructions
    ++ "\n\n## Examples\n\n" ++ examples
    ++ "\n\n## Best Practices\n\n- Follow all instructions in sequence\n- Reference additional files in resources/ when needed\n- Use scripts/ for executable code that doesn\x27t need to be in context\n- Keep responses focused and actionable\n\n## Additional Resources\n\n- See REFERENCE.md for detailed documentation\n- Check resources/ folder for templates and reference materials\n- Review scripts/ for utility code\n\n---\n*Created: "
    ++ today ++ "*\n*Version: 1.0.0*\n", rfl⟩

/-! ### Claim theorems -/

/-- C1 counterexample: on an input consisting only of hyphens the code does
NOT raise; `sanitize_name("---")` returns the empty slug `""`, contradicting
the claim that it fails with InvalidNameError. -/
theorem C1_counterexample : sanitize_name "---" = Except.ok "" := rfl

/-- C1 (amended): when the normalisation steps leave nothing (input made of
disallowed characters, hyphens or spaces only), `sanitize_name` silently
returns the empty slug `""`; no emptiness check exists and no error is
raised. -/
theorem C1_theorem (name : String) (h : normalizeName name.data = []) :
    sanitize_name name = Except.ok "" := by
  rw [sanitize_name]
  simp only [h]
  rfl

/-- C1 witness: the concrete input `"---"` normalises to nothing and is
returned as the empty slug. -/
theorem C1_witness :
    normalizeName ("---" : String).data = [] ∧
    sanitize_name "---" = Except.ok "" :=
  ⟨rfl, C1_theorem "---" rfl⟩

/-- C2: sanitisation is idempotent on success: if `sanitize_name s`
returns `r` then `sanitize_name r` succeeds and returns `r` again. -/
theorem C2_theorem (s r : String) (h : sanitize_name s = Except.ok r) :
    sanitize_name r = Except.ok r := by
  obtain ⟨hdata, hres, hcla, hlen⟩ := sanitize_name_ok h
  have hnorm : normalizeName r.data = r.data := by
    rw [hdata]
    exact normalizeName_idem s.data
  have h2 := @sanitize_name_eq_ok r (by rw [hnorm]; exact hres)
    (by rw [hnorm]; exact hcla) (by rw [hnorm]; exact hlen)
  rw [hnorm] at h2
  exact h2

/-- C2 witness: re-sanitising the concrete slug of `"My Cool Skill!!"`
returns it unchanged. -/
theorem C2_witness :
    sanitize_name "My Cool Skill!!" = Except.ok "my-cool-skill" ∧
    sanitize_name "my-cool-skill" = Except.ok "my-cool-skill" :=
  ⟨rfl, C2_theorem "My Cool Skill!!" "my-cool-skill" rfl⟩

/-- C5: the normalisation performs, in order, lowercasing with
space-to-hyphen replacement, stripping characters outside `[a-z0-9-]`,
collapsing hyphen runs, and trimming boundary hyphens; on the concrete
input `"My Cool Skill!!"` the result is `"my-cool-skill"`. -/
theorem C5_theorem :
    sanitize_name "My Cool Skill!!" = Except.ok "my-cool-skill" ∧
    ∀ name : List Char, normalizeName name =
      stripHyphens (collapseHyphens
        (((name.map lowerChar).map spaceToHyphen).filter isAllowedChar)) :=
  ⟨rfl, fun _ => rfl⟩

/-- C8: `sanitize_name` fails whenever the normalised result contains a
reserved substring or is longer than 64 characters; in particular
`"Claude Helper"` (reserved substring after lowercasing) and a
70-character run of `a` (length) are both rejected. -/
theorem C8_theorem :
    (∀ name : String,
      ((containsSub "anthropic".data (normalizeName name.data)
        || containsSub "claude".data (normalizeName name.data)) = true
        ∨ 64 < (normalizeName name.data).length) →
      ∃ e, sanitize_name name = Except.error e) ∧
    sanitize_name "Claude Helper"
      = Except.error "Skill name cannot contain \x27anthropic\x27 or \x27claude\x27" ∧
    sanitize_name (String.mk (List.replicate 70 'a'))
      = Except.error "Skill name must be 64 characters or less" := by
  refine ⟨?_, rfl, rfl⟩
  intro name hcond
  rw [sanitize_name]
  simp only []
  by_cases hb : (containsSub "anthropic".data (normalizeName name.data)
      || containsSub "claude".data (normalizeName name.data)) = true
  · rw [if_pos hb]
    exact ⟨_, rfl⟩
  · rw [if_neg hb]
    have hlen : 64 < (normalizeName name.data).length := by
      rcases hcond with hc | hc
      · exact absurd hc hb
      · exact hc
    rw [if_pos hlen]
    exact ⟨_, rfl⟩

/-- C8 witness: the reserved-substring condition holds for the concrete
input `"Claude Helper"`, and the theorem rejects it. -/
theorem C8_witness :
    ∃ e, sanitize_name "Claude Helper" = Except.error e :=
  C8_theorem.1 "Claude Helper" (Or.inl (by decide))

/-- C9: every successfully sanitised name satisfies all the structural
constraints: only `[a-z0-9-]` characters, no consecutive hyphens, no
leading or trailing hyphen, at most 64 characters, and neither reserved
substring occurs. -/
theorem C9_theorem (s r : String) (h : sanitize_name s = Except.ok r) :
    (∀ c ∈ r.data, isAllowedChar c = true) ∧
    noDouble r.data = true ∧
    r.data.head? ≠ some '-' ∧
    r.data.getLast? ≠ some '-' ∧
    r.length ≤ 64 ∧
    containsSub "anthropic".data r.data = false ∧
    containsSub "claude".data r.data = false := by
  obtain ⟨hdata, hres, hcla, hlen⟩ := sanitize_name_ok h
  refine ⟨?_, ?_, ?_, ?_, hlen, hres, hcla⟩
  · intro c hc
    rw [hdata] at hc
    exact mem_normalizeName_allowed hc
  · rw [hdata]
    exact noDouble_normalizeName _
  · rw [hdata]
    exact head?_normalizeName _
  · rw [hdata]
    exact getLast?_normalizeName _

/-- C9 witness: the structural constraints hold for the concrete slug of
`"My Cool Skill!!"`. -/
theorem C9_witness :
    (∀ c ∈ ("my-cool-skill" : String).data, isAllowedChar c = true) ∧
    noDouble ("my-cool-skill" : String).data = true ∧
    ("my-cool-skill" : String).data.head? ≠ some '-' ∧
    ("my-cool-skill" : String).data.getLast? ≠ some '-' ∧
    ("my-cool-skill" : String).length ≤ 64 ∧
    containsSub "anthropic".data ("my-cool-skill" : String).data = false ∧
    containsSub "claude".data ("my-cool-skill" : String).data = false :=
  C9_theorem "My Cool Skill!!" "my-cool-skill" rfl

/-- C4: with a valid name, an empty or over-long (>1024) description makes
`create_skill` fail before touching the filesystem: the filesystem
component of the result is exactly the input filesystem and the result is
the corresponding ValidationError message. -/
theorem C4_theorem (n d pu ins ex dep : String) (ip : Option PyPath)
    (t : String) (fs : FS) (sn : String)
    (hsan : sanitize_name n = Except.ok sn)
    (hbad : d = "" ∨ 1024 < d.length) :
    create_skill n d pu ins ex dep ip t fs =
      (fs, Except.error (if 1024 < d.length then
          "Description must be 1024 characters or less"
        else "Description cannot be empty")) := by
  rw [create_skill_ok_case d pu ins ex dep ip t fs hsan]
  by_cases hlen : d.length > 1024
  · rw [if_pos hlen, if_pos hlen]
  · rw [if_neg hlen, if_neg hlen]
    have hd : d = "" := by
      rcases hbad with hd | hlen2
      · exact hd
      · exact absurd hlen2 hlen
    subst hd
    rw [if_pos (show pyStrip "" = "" from rfl)]

/-- C4 witness: the empty description is rejected with the emptiness error
and the (empty) filesystem is returned untouched. -/
theorem C4_witness :
    create_skill "ok" "" "" "" "" "" none "2026-01-01" emptyFS
      = (emptyFS, Except.error "Description cannot be empty") :=
  C4_theorem "ok" "" "" "" "" "" none "2026-01-01" emptyFS "ok" rfl (Or.inl rfl)

set_option maxRecDepth 8000 in
/-- C10 counterexample: a whitespace-only description of 1025 characters
is rejected by the length check (line 49) before the emptiness check
(line 52), so the error is the length message, not the empty-description
message the claim requires. -/
theorem C10_counterexample :
    String.mk (List.replicate 1025 ' ') ≠ "" ∧
    (String.mk (List.replicate 1025 ' ')).data.all pyIsSpace = true ∧
    create_skill "ok" (String.mk (List.replicate 1025 ' ')) "" "" "" "" none
        "2026-01-01" emptyFS
      = (emptyFS, Except.error "Description must be 1024 characters or less") :=
  ⟨by decide, by decide, rfl⟩

/-- C10 (amended): with a valid name, a non-empty description that consists
only of whitespace is rejected with the empty-description error, provided
it is within the 1024-character bound; the emptiness check acts on the
whitespace-stripped description.  (Beyond 1024 characters the length check
fires first.) -/
theorem C10_theorem (n d pu ins ex dep : String) (ip : Option PyPath)
    (t : String) (fs : FS) (sn : String)
    (hsan : sanitize_name n = Except.ok sn)
    (hlen : d.length ≤ 1024)
    (hws : d.data.all pyIsSpace = true) :
    create_skill n d pu ins ex dep ip t fs =
      (fs, Except.error "Description cannot be empty") := by
  rw [create_skill_ok_case d pu ins ex dep ip t fs hsan,
    if_neg (by omega), if_pos (pyStrip_eq_empty_of_all hws)]

/-- C10 witness: a one-space description is rejected as empty. -/
theorem C10_witness :
    create_skill "ok" " " "" "" "" "" none "2026-01-01" emptyFS
      = (emptyFS, Except.error "Description cannot be empty") :=
  C10_theorem "ok" " " "" "" "" "" none "2026-01-01" emptyFS "ok" rfl
    (by decide) (by decide)

/-- C3 counterexample: with no install path, a successful `create_skill`
returns the relative path `./my-skill` (line 241 returns `skill_dir` as
constructed; only the printed report uses `skill_dir.absolute()`), so the
returned path is not absolute, contradicting the claim. -/
theorem C3_counterexample :
    (create_skill "My Skill" "demo" "" "" "" "" none "2026-01-01" emptyFS).2
      = Except.ok ⟨false, ["my-skill"]⟩ ∧
    (⟨false, ["my-skill"]⟩ : PyPath).absolute = false :=
  ⟨rfl, rfl⟩

/-- C3 (amended): a successful `create_skill` returns the target path
exactly as constructed — `installPath/safeName` when an install path is
given, else the relative `./safeName` — which is absolute exactly when the
given install path is absolute (and never when the install path is
absent). -/
theorem C3_theorem (n d pu ins ex dep : String) (ip : Option PyPath)
    (t : String) (fs fs2 : FS) (dir : PyPath)
    (h : create_skill n d pu ins ex dep ip t fs = (fs2, Except.ok dir)) :
    ∃ sn, sanitize_name n = Except.ok sn ∧ dir = resolveTarget ip sn ∧
      (ip = none → dir.absolute = false) ∧
      (∀ p, ip = some p → dir.absolute = p.absolute) := by
  obtain ⟨sn, hsan, hdir, -, -, -⟩ := create_skill_ok_elim h
  refine ⟨sn, hsan, hdir, ?_, ?_⟩
  · intro hip
    rw [hdir, hip]
    rfl
  · intro p hip
    rw [hdir, hip]
    rfl

/-- C3 witness: the concrete run with no install path returns the
non-absolute path `./my-skill`. -/
theorem C3_witness :
    ∃ sn, sanitize_name "My Skill" = Except.ok sn ∧
      (⟨false, ["my-skill"]⟩ : PyPath) = resolveTarget none sn ∧
      ((none : Option PyPath) = none →
        (⟨false, ["my-skill"]⟩ : PyPath).absolute = false) ∧
      (∀ p, (none : Option PyPath) = some p →
        (⟨false, ["my-skill"]⟩ : PyPath).absolute = p.absolute) :=
  C3_theorem "My Skill" "demo" "" "" "" "" none "2026-01-01" emptyFS _
    ⟨false, ["my-skill"]⟩ rfl

/-- C6: a successful `create_skill` creates under the returned target
exactly the two subdirectories and five files (with the rendered
contents), touches nothing else under the target, the `SKILL.md` metadata
header carries `name: <safeName>` and `description: <description>`
exactly, and the footer has a dependencies line precisely when
`dependencies` is non-empty. -/
theorem C6_theorem (n d pu ins ex dep : String) (ip : Option PyPath)
    (t : String) (fs fs2 : FS) (dir : PyPath)
    (h : create_skill n d pu ins ex dep ip t fs = (fs2, Except.ok dir)) :
    ∃ sn, sanitize_name n = Except.ok sn ∧
      fs2 dir = some Entry.dir ∧
      fs2 (dir.child "resources") = some Entry.dir ∧
      fs2 (dir.child "scripts") = some Entry.dir ∧
      fs2 (dir.child "SKILL.md")
        = some (Entry.file (skill_content n sn d pu ins ex dep t)) ∧
      fs2 (dir.child "REFERENCE.md")
        = some (Entry.file (reference_content n t)) ∧
      fs2 ((dir.child "resources").child "README.md")
        = some (Entry.file (resources_readme n)) ∧
      fs2 ((dir.child "scripts").child "README.md")
        = some (Entry.file (scripts_readme n)) ∧
      fs2 (dir.child ".gitignore")
        = some (Entry.file gitignore_content) ∧
      (∀ q, q ∉ pathPrefixes dir →
        q ≠ dir.child "resources" → q ≠ dir.child "scripts" →
        q ≠ dir.child "SKILL.md" → q ≠ dir.child "REFERENCE.md" →
        q ≠ (dir.child "resources").child "README.md" →
        q ≠ (dir.child "scripts").child "README.md" →
        q ≠ dir.child ".gitignore" → fs2 q = fs q) ∧
      (∃ rest, skill_content n sn d pu ins ex dep t
        = "---\nname: " ++ sn ++ "\ndescription: " ++ d ++ "\n---\n" ++ rest) ∧
      (∃ pre, skill_content n sn d pu ins ex dep t
        = pre ++ (if dep = "" then ""
            else "*Dependencies: " ++ dep ++ "*") ++ "\n") := by
  obtain ⟨sn, hsan, hdir, -, -, hmat⟩ := create_skill_ok_elim h
  obtain ⟨-, hpref, hres, hscr, hf1, hf2, hf3, hf4, hf5, hout⟩ :=
    materializeFiles_ok hmat
  subst hdir
  exact ⟨sn, hsan,
    hpref _ (self_mem_pathPrefixes (resolveTarget_components_ne_nil ip sn)),
    hres, hscr, hf1, hf2, hf3, hf4, hf5, hout,
    skill_content_header n sn d pu ins ex dep t,
    skill_content_footer n sn d pu ins ex dep t⟩

/-- C6 witness: the contract instantiated on a concrete run in the empty
filesystem with no install path. -/
theorem C6_witness :
    ∃ sn, sanitize_name "My Skill" = Except.ok sn ∧
      (create_skill "My Skill" "demo" "" "" "" "" none "2026-01-01" emptyFS).1
        (⟨false, ["my-skill"]⟩ : PyPath) = some Entry.dir ∧
      (create_skill "My Skill" "demo" "" "" "" "" none "2026-01-01" emptyFS).1
        ((⟨false, ["my-skill"]⟩ : PyPath).child "resources") = some Entry.dir ∧
      (create_skill "My Skill" "demo" "" "" "" "" none "2026-01-01" emptyFS).1
        ((⟨false, ["my-skill"]⟩ : PyPath).child "scripts") = some Entry.dir ∧
      (create_skill "My Skill" "demo" "" "" "" "" none "2026-01-01" emptyFS).1
        ((⟨false, ["my-skill"]⟩ : PyPath).child "SKILL.md")
        = some (Entry.file (skill_content "My Skill" sn "demo" "" "" "" "" "2026-01-01")) ∧
      (create_skill "My Skill" "demo" "" "" "" "" none "2026-01-01" emptyFS).1
        ((⟨false, ["my-skill"]⟩ : PyPath).child "REFERENCE.md")
        = some (Entry.file (reference_content "My Skill" "2026-01-01")) ∧
      (create_skill "My Skill" "demo" "" "" "" "" none "2026-01-01" emptyFS).1
        (((⟨false, ["my-skill"]⟩ : PyPath).child "resources").child "README.md")
        = some (Entry.file (resources_readme "My Skill")) ∧
      (create_skill "My Skill" "demo" "" "" "" "" none "2026-01-01" emptyFS).1
        (((⟨false, ["my-skill"]⟩ : PyPath).child "scripts").child "README.md")
        = some (Entry.file (scripts_readme "My Skill")) ∧
      (create_skill "My Skill" "demo" "" "" "" "" none "2026-01-01" emptyFS).1
        ((⟨false, ["my-skill"]⟩ : PyPath).child ".gitignore")
        = some (Entry.file gitignore_content) ∧
      (∀ q, q ∉ pathPrefixes (⟨false, ["my-skill"]⟩ : PyPath) →
        q ≠ (⟨false, ["my-skill"]⟩ : PyPath).child "resources" →
        q ≠ (⟨false, ["my-skill"]⟩ : PyPath).child "scripts" →
        q ≠ (⟨false, ["my-skill"]⟩ : PyPath).child "SKILL.md" →
        q ≠ (⟨false, ["my-skill"]⟩ : PyPath).child "REFERENCE.md" →
        q ≠ ((⟨false, ["my-skill"]⟩ : PyPath).child "resources").child "README.md" →
        q ≠ ((⟨false, ["my-skill"]⟩ : PyPath).child "scripts").child "README.md" →
        q ≠ (⟨false, ["my-skill"]⟩ : PyPath).child ".gitignore" →
        (create_skill "My Skill" "demo" "" "" "" "" none "2026-01-01" emptyFS).1 q
          = emptyFS q) ∧
      (∃ rest, skill_content "My Skill" sn "demo" "" "" "" "" "2026-01-01"
        = "---\nname: " ++ sn ++ "\ndescription: " ++ "demo" ++ "\n---\n" ++ rest) ∧
      (∃ pre, skill_content "My Skill" sn "demo" "" "" "" "" "2026-01-01"
        = pre ++ (if ("" : String) = "" then ""
            else "*Dependencies: " ++ "" ++ "*") ++ "\n") :=
  C6_theorem "My Skill" "demo" "" "" "" "" none "2026-01-01" emptyFS _
    ⟨false, ["my-skill"]⟩ rfl

/-- C7: if `create_skill` succeeded once, running it again with the same
spec (and a possibly different clock reading) succeeds again on the
resulting filesystem: the existing directories do not make it fail, the
five files are fully overwritten with the second run's renderings, and
every other path — in particular any content previously added under
`resources/` or `scripts/` — is left exactly as it was. -/
theorem C7_theorem (n d pu ins ex dep : String) (ip : Option PyPath)
    (t1 t2 : String) (fs fs1 : FS) (dir : PyPath)
    (h : create_skill n d pu ins ex dep ip t1 fs = (fs1, Except.ok dir)) :
    ∃ sn fs2, sanitize_name n = Except.ok sn ∧
      create_skill n d pu ins ex dep ip t2 fs1 = (fs2, Except.ok dir) ∧
      fs2 (dir.child "SKILL.md")
        = some (Entry.file (skill_content n sn d pu ins ex dep t2)) ∧
      fs2 (dir.child "REFERENCE.md")
        = some (Entry.file (reference_content n t2)) ∧
      fs2 ((dir.child "resources").child "README.md")
        = some (Entry.file (resources_readme n)) ∧
      fs2 ((dir.child "scripts").child "README.md")
        = some (Entry.file (scripts_readme n)) ∧
      fs2 (dir.child ".gitignore")
        = some (Entry.file gitignore_content) ∧
      (∀ q, q ≠ dir.child "SKILL.md" → q ≠ dir.child "REFERENCE.md" →
        q ≠ (dir.child "resources").child "README.md" →
        q ≠ (dir.child "scripts").child "README.md" →
        q ≠ dir.child ".gitignore" → fs2 q = fs1 q) := by
  obtain ⟨sn, hsan, hdir, hlen, hne, hmat⟩ := create_skill_ok_elim h
  obtain ⟨-, hpref, hres, hscr, hf1, hf2, hf3, hf4, hf5, -⟩ :=
    materializeFiles_ok hmat
  subst hdir
  have w1 : fs1 ((resolveTarget ip sn).child "SKILL.md") ≠ some Entry.dir := by
    rw [hf1]; simp
  have w2 : fs1 ((resolveTarget ip sn).child "REFERENCE.md") ≠ some Entry.dir := by
    rw [hf2]; simp
  have w3 : fs1 (((resolveTarget ip sn).child "resources").child "README.md")
      ≠ some Entry.dir := by
    rw [hf3]; simp
  have w4 : fs1 (((resolveTarget ip sn).child "scripts").child "README.md")
      ≠ some Entry.dir := by
    rw [hf4]; simp
  have w5 : fs1 ((resolveTarget ip sn).child ".gitignore") ≠ some Entry.dir := by
    rw [hf5]; simp
  have hrun := @materializeFiles_run n sn d pu ins ex dep t2
    (resolveTarget ip sn) fs1 hpref hres hscr w1 w2 w3 w4 w5
  have hcall : create_skill n d pu ins ex dep ip t2 fs1 =
      (FS.update (FS.update (FS.update (FS.update (FS.update fs1
        ((resolveTarget ip sn).child "SKILL.md")
          (Entry.file (skill_content n sn d pu ins ex dep t2)))
        ((resolveTarget ip sn).child "REFERENCE.md")
          (Entry.file (reference_content n t2)))
        (((resolveTarget ip sn).child "resources").child "README.md")
          (Entry.file (resources_readme n)))
        (((resolveTarget ip sn).child "scripts").child "README.md")
          (Entry.file (scripts_readme n)))
        ((resolveTarget ip sn).child ".gitignore")
          (Entry.file gitignore_content),
       Except.ok (resolveTarget ip sn)) := by
    rw [create_skill_ok_case d pu ins ex dep ip t2 fs1 hsan, if_neg hlen,
      if_neg hne]
    exact hrun
  have n15 : (resolveTarget ip sn).child "SKILL.md"
      ≠ (resolveTarget ip sn).child ".gitignore" := child_ne_child (by decide)
  have n14 : (resolveTarget ip sn).child "SKILL.md"
      ≠ ((resolveTarget ip sn).child "scripts").child "README.md" :=
    (childchild_ne_child (resolveTarget ip sn) "scripts" "README.md" "SKILL.md").symm
  have n13 : (resolveTarget ip sn).child "SKILL.md"
      ≠ ((resolveTarget ip sn).child "resources").child "README.md" :=
    (childchild_ne_child (resolveTarget ip sn) "resources" "README.md" "SKILL.md").symm
  have n12 : (resolveTarget ip sn).child "SKILL.md"
      ≠ (resolveTarget ip sn).child "REFERENCE.md" := child_ne_child (by decide)
  have n25 : (resolveTarget ip sn).child "REFERENCE.md"
      ≠ (resolveTarget ip sn).child ".gitignore" := child_ne_child (by decide)
  have n24 : (resolveTarget ip sn).child "REFERENCE.md"
      ≠ ((resolveTarget ip sn).child "scripts").child "README.md" :=
    (childchild_ne_child (resolveTarget ip sn) "scripts" "README.md" "REFERENCE.md").symm
  have n23 : (resolveTarget ip sn).child "REFERENCE.md"
      ≠ ((resolveTarget ip sn).child "resources").child "README.md" :=
    (childchild_ne_child (resolveTarget ip sn) "resources" "README.md" "REFERENCE.md").symm
  have n35 : ((resolveTarget ip sn).child "resources").child "README.md"
      ≠ (resolveTarget ip sn).child ".gitignore" :=
    childchild_ne_child (resolveTarget ip sn) "resources" "README.md" ".gitignore"
  have n34 : ((resolveTarget ip sn).child "resources").child "README.md"
      ≠ ((resolveTarget ip sn).child "scripts").child "README.md" :=
    childchild_ne (by decide)
  have n45 : ((resolveTarget ip sn).child "scripts").child "README.md"
      ≠ (resolveTarget ip sn).child ".gitignore" :=
    childchild_ne_child (resolveTarget ip sn) "scripts" "README.md" ".gitignore"
  refine ⟨sn, _, hsan, hcall, ?_, ?_, ?_, ?_, ?_, ?_⟩
  · rw [FS.update_ne _ _ n15, FS.update_ne _ _ n14, FS.update_ne _ _ n13,
      FS.update_ne _ _ n12]
    exact FS.update_self ..
  · rw [FS.update_ne _ _ n25, FS.update_ne _ _ n24, FS.update_ne _ _ n23]
    exact FS.update_self ..
  · rw [FS.update_ne _ _ n35, FS.update_ne _ _ n34]
    exact FS.update_self ..
  · rw [FS.update_ne _ _ n45]
    exact FS.update_self ..
  · exact FS.update_self ..
  · intro q hq1 hq2 hq3 hq4 hq5
    rw [FS.update_ne _ _ hq5, FS.update_ne _ _ hq4, FS.update_ne _ _ hq3,
      FS.update_ne _ _ hq2, FS.update_ne _ _ hq1]

/-- C7 witness: the double-run contract instantiated on a concrete first
run in the empty filesystem, with the clock moved between runs. -/
theorem C7_witness :
    ∃ sn fs2, sanitize_name "My Skill" = Except.ok sn ∧
      create_skill "My Skill" "demo" "" "" "" "" none "2026-01-02"
        (create_skill "My Skill" "demo" "" "" "" "" none "2026-01-01" emptyFS).1
        = (fs2, Except.ok ⟨false, ["my-skill"]⟩) ∧
      fs2 ((⟨false, ["my-skill"]⟩ : PyPath).child "SKILL.md")
        = some (Entry.file
            (skill_content "My Skill" sn "demo" "" "" "" "" "2026-01-02")) ∧
      fs2 ((⟨false, ["my-skill"]⟩ : PyPath).child "REFERENCE.md")
        = some (Entry.file (reference_content "My Skill" "2026-01-02")) ∧
      fs2 (((⟨false, ["my-skill"]⟩ : PyPath).child "resources").child "README.md")
        = some (Entry.file (resources_readme "My Skill")) ∧
      fs2 (((⟨false, ["my-skill"]⟩ : PyPath).child "scripts").child "README.md")
        = some (Entry.file (scripts_readme "My Skill")) ∧
      fs2 ((⟨false, ["my-skill"]⟩ : PyPath).child ".gitignore")
        = some (Entry.file gitignore_content) ∧
      (∀ q, q ≠ (⟨false, ["my-skill"]⟩ : PyPath).child "SKILL.md" →
        q ≠ (⟨false, ["my-skill"]⟩ : PyPath).child "REFERENCE.md" →
        q ≠ ((⟨false, ["my-skill"]⟩ : PyPath).child "resources").child "README.md" →
        q ≠ ((⟨false, ["my-skill"]⟩ : PyPath).child "scripts").child "README.md" →
        q ≠ (⟨false, ["my-skill"]⟩ : PyPath).child ".gitignore" →
        fs2 q = (create_skill "My Skill" "demo" "" "" "" "" none "2026-01-01"
          emptyFS).1 q) :=
  C7_theorem "My Skill" "demo" "" "" "" "" none "2026-01-01" "2026-01-02"
    emptyFS _ ⟨false, ["my-skill"]⟩ rfl
